import Mathlib

/-!
Shallow embedding of the GreptimeTeam/rust-java-demo native bridge
(src/core/src/main/rust/demo/src/{lib.rs, logger.rs, method_invoker.rs, error.rs}).

Modelling conventions:
* Fallible JNI calls are oracles: an environment record supplies each call
  site's outcome (`Except JniError _`, or `Option JniError` when only the
  failure matters).  A `JniError`'s `msg` field stands for the Debug/Display
  rendering of the underlying `jni::errors::Error` value, which is opaque to
  this crate.
* Rust `panic!`/`expect` sites are modelled as structured `panicked`
  outcomes carrying the panic site and its format arguments, since a panic
  aborts the worker/process and its exact message text is diagnostic only.
* Messages thrown to the Java side as exceptions are modelled as the actual
  strings the code builds, because several claims are about their content.
* Thread-local state, once-cells and the init flag are explicit state that
  each modelled function threads through.
-/

namespace Demo

/-- Abstract jni::errors::Error; `msg` stands for its Debug/Display rendering. -/
structure JniError where
  msg : String
deriving Repr, DecidableEq

/-- Abstract reqwest::Error; `msg` stands for its Debug rendering. -/
structure ReqwestError where
  msg : String
deriving Repr, DecidableEq

/-- The crate's error enum (error.rs): Jni and Reqwest variants, each with a
snafu implicit Location (abstracted as the string Debug rendering). -/
inductive Error where
  | jni (error : JniError) (loc : String)
  | reqwest (error : ReqwestError) (loc : String)
deriving Repr, DecidableEq

/-- Rust derived Debug rendering of `Error`, as produced by the
`format!("\x7b:?\x7d", err)` calls in lib.rs (struct-variant Debug shape). -/
def Error.debugFmt : Error → String
  | .jni e loc => "Jni \x7b error: " ++ e.msg ++ ", loc: " ++ loc ++ " \x7d"
  | .reqwest e loc => "Reqwest \x7b error: " ++ e.msg ++ ", loc: " ++ loc ++ " \x7d"

/-- A pending Java exception observed by `throw_runtime_exception`
(class name and message, both retrieved from the host). -/
structure PendingException where
  className : String
  message : String
deriving Repr, DecidableEq

/-- Message finally thrown by `throw_runtime_exception` (lib.rs 230-285):
if a Java exception was already pending, its class name and message are
appended to `msg`; otherwise `msg` is thrown as-is.  (The class-name and
message retrieval calls, which panic on failure, are abstracted as
succeeding: their failure affects no claim.) -/
def throw_runtime_exception (pending : Option PendingException) (msg : String) : String :=
  match pending with
  | none => msg
  | some ex => msg ++ ". Java exception occurred: " ++ ex.className ++ ": " ++ ex.message

/-- Counts one initializer run. -/
def countB (b : Bool) : Nat := if b then 1 else 0

/-- Semantics of OnceLock::get_or_try_init: if the cell is set, return the
stored value without running the initializer; otherwise run it, storing the
value on success and leaving the cell unset on error.  The Bool reports
whether the initializer ran. -/
def get_or_try_init (cell : Option α) (f : Except ε α) :
    Except ε α × Option α × Bool :=
  match cell with
  | some v => (.ok v, some v, false)
  | none =>
    match f with
    | .ok v => (.ok v, some v, true)
    | .error e => (.error e, none, false)

/-! ## method_invoker.rs -/

/-- jni ReturnType tags used by the three cached call sites. -/
inductive RetType where
  | object
  | primLong
deriving Repr, DecidableEq

/-- StaticMethodInvoker: a pinned (class global-ref, static method id,
return type) triple, identified by the names it was resolved from. -/
structure StaticMethodInvoker where
  class_name : String
  method_name : String
  sig : String
  ret : RetType
deriving Repr, DecidableEq

/-- Oracle for the resolution steps of StaticMethodInvoker::try_new:
`none` means the host call succeeds. -/
structure ResolveEnv where
  find_class : String → Option JniError
  new_global_ref : Option JniError
  get_static_method_id : String → String → String → Option JniError

/-- StaticMethodInvoker::try_new: find_class, pin a global ref, look up the
static method id; first failure propagates. -/
def StaticMethodInvoker.try_new (env : ResolveEnv) (class_name method_name sig : String)
    (ret : RetType) : Except JniError StaticMethodInvoker :=
  match env.find_class class_name with
  | some e => .error e
  | none =>
    match env.new_global_ref with
    | some e => .error e
    | none =>
      match env.get_static_method_id class_name method_name sig with
      | some e => .error e
      | none => .ok ⟨class_name, method_name, sig, ret⟩

/-- The three process-wide OnceLock cells of method_invoker.rs. -/
structure MIState where
  logger : Option StaticMethodInvoker
  register : Option StaticMethodInvoker
  get_future : Option StaticMethodInvoker
deriving Repr, DecidableEq

/-- All three cells unset, as at process start. -/
def MIState.empty : MIState := ⟨none, none, none⟩

/-- How many times each call site's resolution ran. -/
structure ResCounts where
  logger : Nat
  register : Nat
  get_future : Nat
deriving Repr, DecidableEq

instance : Add ResCounts :=
  ⟨fun a b => ⟨a.logger + b.logger, a.register + b.register, a.get_future + b.get_future⟩⟩

/-- The exact resolution request of the LOGGER cell (method_invoker.rs 113-121). -/
def logger_site (env : ResolveEnv) : Except JniError StaticMethodInvoker :=
  StaticMethodInvoker.try_new env "io/greptime/demo/utils/Logger" "getLogger"
    "(Ljava/lang/String;)Lio/greptime/demo/utils/Logger;" .object

/-- The exact resolution request of the ASYNC_REGISTRY_REGISTER cell. -/
def register_site (env : ResolveEnv) : Except JniError StaticMethodInvoker :=
  StaticMethodInvoker.try_new env "io/greptime/demo/utils/AsyncRegistry" "register"
    "()J" .primLong

/-- The exact resolution request of the ASYNC_REGISTRY_GET_FUTURE cell. -/
def get_future_site (env : ResolveEnv) : Except JniError StaticMethodInvoker :=
  StaticMethodInvoker.try_new env "io/greptime/demo/utils/AsyncRegistry" "get"
    "(J)Ljava/util/concurrent/CompletableFuture;" .object

/-- method_invoker.rs `init`: get_or_try_init each of the three cells in
order, propagating the first error (the cells resolved so far stay set). -/
def mi_init (env : ResolveEnv) (s : MIState) :
    Except JniError Unit × MIState × ResCounts :=
  match get_or_try_init s.logger (logger_site env) with
  | (.error e, c1, r1) =>
    (.error e, { s with logger := c1 }, ⟨countB r1, 0, 0⟩)
  | (.ok _, c1, r1) =>
    match get_or_try_init s.register (register_site env) with
    | (.error e, c2, r2) =>
      (.error e, { s with logger := c1, register := c2 }, ⟨countB r1, countB r2, 0⟩)
    | (.ok _, c2, r2) =>
      match get_or_try_init s.get_future (get_future_site env) with
      | (.error e, c3, r3) =>
        (.error e, ⟨c1, c2, c3⟩, ⟨countB r1, countB r2, countB r3⟩)
      | (.ok _, c3, r3) =>
        (.ok (), ⟨c1, c2, c3⟩, ⟨countB r1, countB r2, countB r3⟩)

/-- n first-touches of `mi_init` run back to back: OnceLock serializes
racing initializers, so N concurrent first-touches behave as N sequential
calls against the shared cells.  Accumulates resolution counts. -/
def mi_init_n (env : ResolveEnv) : Nat → MIState → MIState × ResCounts
  | 0, s => (s, ⟨0, 0, 0⟩)
  | n + 1, s =>
    let (_, s1, c1) := mi_init env s
    let (s2, c2) := mi_init_n env n s1
    (s2, c1 + c2)

/-- jint value of JNIVersion::V1_8. -/
def JNI_VERSION_1_8 : Int := 65544

/-- Outcome of JNI_OnLoad: either the library loads (returning the JNI
version) or a panic aborts the load. -/
inductive OnLoadOutcome where
  | loaded (version : Int) (s : MIState) (counts : ResCounts)
  | aborted (s : MIState)
deriving Repr, DecidableEq

/-- JNI_OnLoad (method_invoker.rs 100-110): get a JNIEnv from the VM
(panicking on failure), run `init`, panic if it fails, else return V1_8. -/
def JNI_OnLoad (get_env : Option JniError) (env : ResolveEnv) (s : MIState) :
    OnLoadOutcome :=
  match get_env with
  | some _ => .aborted s
  | none =>
    match mi_init env s with
    | (.error _, s1, _) => .aborted s1
    | (.ok _, s1, c) => .loaded JNI_VERSION_1_8 s1 c

/-! ## logger.rs -/

/-- log::Level. -/
inductive Level where
  | error
  | warn
  | info
  | debug
  | trace
deriving Repr, DecidableEq

/-- A resolved Java instance-method id, identified by the (class, name,
signature) it was looked up with. -/
structure JMethodId where
  className : String
  methodName : String
  sig : String
deriving Repr, DecidableEq

/-- LogMethods: the five pre-resolved instance methods of the Java Logger. -/
structure LogMethods where
  error : JMethodId
  warn : JMethodId
  info : JMethodId
  debug : JMethodId
  trace : JMethodId
deriving Repr, DecidableEq

/-- LogMethods::find_method: select the method id by record level. -/
def LogMethods.find_method (m : LogMethods) : Level → JMethodId
  | .error => m.error
  | .warn => m.warn
  | .info => m.info
  | .debug => m.debug
  | .trace => m.trace

/-- A pinned global ref to a Java Logger object, identified by the name it
was created for. -/
structure LoggerRef where
  name : String
deriving Repr, DecidableEq

/-- CallState (logger.rs): the named-logger cache (Mutex HashMap, modelled
as an association list) plus the five resolved method ids. -/
structure CallState where
  loggers : List (String × LoggerRef)
  methods : LogMethods
deriving Repr, DecidableEq

/-- CallState::try_new (logger.rs 60-73): resolve the five method ids on
io/greptime/demo/utils/Logger, in source order, propagating the first
failure.  The oracle gives each lookup's failure, `none` meaning success. -/
def CallState.try_new (gmi : String → String → String → Option JniError) :
    Except JniError CallState :=
  match gmi "io/greptime/demo/utils/Logger" "error" "(Ljava/lang/String;)V" with
  | some e => .error e
  | none =>
    match gmi "io/greptime/demo/utils/Logger" "warn" "(Ljava/lang/String;)V" with
    | some e => .error e
    | none =>
      match gmi "io/greptime/demo/utils/Logger" "info" "(Ljava/lang/String;)V" with
      | some e => .error e
      | none =>
        match gmi "io/greptime/demo/utils/Logger" "debug" "(Ljava/lang/String;)V" with
        | some e => .error e
        | none =>
          match gmi "io/greptime/demo/utils/Logger" "trace" "(Ljava/lang/String;)V" with
          | some e => .error e
          | none =>
            .ok ⟨[],
                ⟨⟨"io/greptime/demo/utils/Logger", "error", "(Ljava/lang/String;)V"⟩,
                  ⟨"io/greptime/demo/utils/Logger", "warn", "(Ljava/lang/String;)V"⟩,
                  ⟨"io/greptime/demo/utils/Logger", "info", "(Ljava/lang/String;)V"⟩,
                  ⟨"io/greptime/demo/utils/Logger", "debug", "(Ljava/lang/String;)V"⟩,
                  ⟨"io/greptime/demo/utils/Logger", "trace", "(Ljava/lang/String;)V"⟩⟩⟩

/-- log::Metadata, reduced to the target the code consults. -/
structure Metadata where
  target : String
deriving Repr, DecidableEq

/-- log::Record, reduced to the fields the code consults.  `args` is the
already-rendered message text. -/
structure LogRecord where
  metadata : Metadata
  level : Level
  file : Option String
  line : Option Nat
  args : String
deriving Repr, DecidableEq

/-- Character-level semantics of Rust str::starts_with (equivalent to the
byte-level test on valid UTF-8 strings). -/
def str_starts_with (s p : String) : Bool :=
  p.data.isPrefixOf s.data

/-- Logger::enabled (logger.rs 101-104): discard records whose target
starts with "jni", to avoid infinite recursion. -/
def Logger.enabled (m : Metadata) : Bool :=
  !(str_starts_with m.target "jni")

/-- format_msg (logger.rs 148-163): file if present, then ":line" if
present, then " - ", then the message.  (Writing into a String cannot fail
at this abstraction, so the fmt::Result wrapper is dropped.) -/
def format_msg (r : LogRecord) : String :=
  (match r.file with
    | some f => f
    | none => "") ++
  ((match r.line with
    | some l => ":" ++ toString l
    | none => "") ++
  (" - " ++ r.args))

/-- Observable cross-boundary steps taken by Logger::log. -/
inductive LogEffect where
  | attach_permanent
  | init_logger (name : String)
  | dispatch (name : String) (method : JMethodId) (msg : String)
deriving Repr, DecidableEq

/-- Panic sites reachable from Logger::log. -/
inductive LogPanic where
  | javaVmNotInitialized
  | attachPermanentFailed (e : JniError)
  | callStateNotInitialized
  | invokerNotInitialized (site : String)
deriving Repr, DecidableEq

/-- Oracle for the fallible host calls made by Logger::log. -/
structure LogEnv where
  vm_set : Bool
  attach_permanent : Option JniError
  logger_site_set : Bool
  new_string : String → Option JniError
  get_logger : String → Except JniError LoggerRef
  call_method : Option JniError
  pending : Option PendingException

/-- Result of one Logger::log call: the effects it performed, the
call-state cache afterwards, any Java exception it threw, any panic. -/
structure LogOutcome where
  effects : List LogEffect
  call_state : Option CallState
  thrown : Option String
  panic : Option LogPanic
deriving Repr, DecidableEq

/-- Tail of Logger::log inside with_logger's closure (logger.rs 118-137):
make the Java message string, select the level's method id, invoke it;
failures are thrown to Java (inner unwrap_or_throw), not escalated. -/
def log_dispatch (env : LogEnv) (cs : CallState) (logger : LoggerRef)
    (record : LogRecord) (msg : String) (effs : List LogEffect) : LogOutcome :=
  match logger, env.new_string msg with
  | _, some e => ⟨effs, some cs, some (throw_runtime_exception env.pending e.msg), none⟩
  | _, none =>
    match env.call_method with
    | some e =>
      ⟨effs ++ [.dispatch record.metadata.target (cs.methods.find_method record.level) msg],
        some cs, some (throw_runtime_exception env.pending e.msg), none⟩
    | none =>
      ⟨effs ++ [.dispatch record.metadata.target (cs.methods.find_method record.level) msg],
        some cs, none, none⟩

/-- Logger::log (logger.rs 106-140): drop disabled records before any other
step; otherwise attach the current thread permanently, format the message,
look up or lazily create the named logger (CallState::with_logger /
init_logger, logger.rs 75-94), then dispatch. -/
def Logger.log (env : LogEnv) (cs? : Option CallState) (record : LogRecord) :
    LogOutcome :=
  if !(Logger.enabled record.metadata) then
    ⟨[], cs?, none, none⟩
  else if env.vm_set = false then
    ⟨[], cs?, none, some .javaVmNotInitialized⟩
  else
    match env.attach_permanent with
    | some e => ⟨[], cs?, none, some (.attachPermanentFailed e)⟩
    | none =>
      match cs? with
      | none => ⟨[.attach_permanent], none, none, some .callStateNotInitialized⟩
      | some cs =>
        let msg := format_msg record
        match cs.loggers.lookup record.metadata.target with
        | some logger =>
          log_dispatch env cs logger record msg [.attach_permanent]
        | none =>
          match env.new_string record.metadata.target with
          | some e =>
            ⟨[.attach_permanent], some cs,
              some (throw_runtime_exception env.pending e.msg), none⟩
          | none =>
            if env.logger_site_set = false then
              ⟨[.attach_permanent], some cs, none, some (.invokerNotInitialized "LOGGER")⟩
            else
              match env.get_logger record.metadata.target with
              | .error e =>
                ⟨[.attach_permanent, .init_logger record.metadata.target], some cs,
                  some (throw_runtime_exception env.pending e.msg), none⟩
              | .ok logger =>
                let cs2 : CallState :=
                  { cs with loggers := (record.metadata.target, logger) :: cs.loggers }
                log_dispatch env cs2 logger record msg
                  [.attach_permanent, .init_logger record.metadata.target]

/-! ## lib.rs: thread-local environment binding -/

/-- Abstract JNIEnv pointer handed out by an attachment. -/
structure EnvHandle where
  raw : Nat
deriving Repr, DecidableEq

/-- The ENV thread-local cell of one native thread (lib.rs 48-50). -/
structure ThreadTls where
  env : Option EnvHandle
deriving Repr, DecidableEq

/-- Outcome of the on_thread_start hook on one pool thread. -/
inductive ThreadStartOutcome where
  | ok (tls : ThreadTls) (daemon_attaches : Nat)
  | panicked
deriving Repr, DecidableEq

/-- The on_thread_start hook installed on the tokio pool (lib.rs 106-114):
attach the fresh worker thread to the JVM as a daemon (panicking on
failure) and store the raw env pointer in the ENV thread-local. -/
def on_thread_start (attach_daemon : Except JniError EnvHandle) (tls : ThreadTls) :
    ThreadStartOutcome :=
  match attach_daemon with
  | .error _ => .panicked
  | .ok h =>
    let _ := tls
    .ok ⟨some h⟩ 1

/-- Outcome of jni_env: the handle, the (unchanged) thread-local state and
the number of attach calls performed, or a panic. -/
inductive JniEnvOutcome where
  | ok (handle : EnvHandle) (tls : ThreadTls) (attaches : Nat)
  | panicked
deriving Repr, DecidableEq

/-- jni_env (lib.rs 70-77): read the ENV thread-local; panic if it was
never set ("Not calling from inside the tokio runtime?"); it performs no
attachment itself. -/
def jni_env (tls : ThreadTls) : JniEnvOutcome :=
  match tls.env with
  | none => .panicked
  | some h => .ok h tls 0

/-! ## lib.rs: libInit -/

/-- The process-wide singletons of lib.rs: the INIT_LOCK flag, the JAVA_VM,
RUNTIME (holding its worker-thread count), CALL_STATE and GLOBAL_LOGGER
cells. -/
structure GlobalState where
  init_flag : Bool
  java_vm : Option Unit
  runtime : Option Nat
  call_state : Option CallState
  global_logger : Bool
deriving Repr, DecidableEq

/-- Process start: flag down, every cell unset. -/
def GlobalState.empty : GlobalState := ⟨false, none, none, none, false⟩

/-- Oracle for the fallible steps of libInit.  `build_runtime` is the
io::Error Debug rendering on pool-build failure; `get_method_id` feeds
CallState::try_new. -/
structure InitEnv where
  pending : Option PendingException
  num_cpus : Nat
  get_java_vm : Option JniError
  build_runtime : Option String
  get_method_id : String → String → String → Option JniError

/-- How many times each once-initializer ran during one libInit call. -/
structure InitEffects where
  vm_resolved : Nat
  pools_built : Nat
  call_state_built : Nat
  logger_registered : Nat
deriving Repr, DecidableEq

/-- No initializer ran. -/
def InitEffects.zero : InitEffects := ⟨0, 0, 0, 0⟩

/-- Result of one libInit call. -/
structure InitOutcome where
  state : GlobalState
  thrown : Option String
  effects : InitEffects
deriving Repr, DecidableEq

/-- Java_io_greptime_demo_RustJavaDemo_libInit (lib.rs 79-135): under
INIT_LOCK, return silently if already initialized; reject a negative size
with a thrown RuntimeException; else once-init JAVA_VM, RUNTIME (a pool of
`runtime_size` workers, or num_cpus when 0), CALL_STATE and GLOBAL_LOGGER,
throwing and stopping at the first failure, and raise the init flag only
after all four succeed.  (The closing info! log and the set_logger expect,
unreachable under the once-cell, are not modelled.) -/
def libInit (env : InitEnv) (runtime_size : Int) (s : GlobalState) : InitOutcome :=
  if s.init_flag then
    ⟨s, none, InitEffects.zero⟩
  else if runtime_size < 0 then
    ⟨s, some (throw_runtime_exception env.pending "`runtime_size` cannot be less than 0"),
      InitEffects.zero⟩
  else
    match get_or_try_init s.java_vm
        (match env.get_java_vm with
          | some e => .error e
          | none => .ok ()) with
    | (.error e, c1, r1) =>
      ⟨{ s with java_vm := c1 },
        some (throw_runtime_exception env.pending e.msg),
        ⟨countB r1, 0, 0, 0⟩⟩
    | (.ok _, c1, r1) =>
      match get_or_try_init s.runtime
          (match env.build_runtime with
            | some e => Except.error e
            | none => Except.ok
                (if runtime_size = 0 then env.num_cpus else runtime_size.toNat)) with
      | (.error e, c2, r2) =>
        ⟨{ s with java_vm := c1, runtime := c2 },
          some (throw_runtime_exception env.pending e),
          ⟨countB r1, countB r2, 0, 0⟩⟩
      | (.ok _, c2, r2) =>
        match get_or_try_init s.call_state (CallState.try_new env.get_method_id) with
        | (.error e, c3, r3) =>
          ⟨{ s with java_vm := c1, runtime := c2, call_state := c3 },
            some (throw_runtime_exception env.pending e.msg),
            ⟨countB r1, countB r2, countB r3, 0⟩⟩
        | (.ok _, c3, r3) =>
          ⟨{ init_flag := true, java_vm := c1, runtime := c2, call_state := c3,
              global_logger := true },
            none,
            ⟨countB r1, countB r2, countB r3, countB !s.global_logger⟩⟩

/-! ## lib.rs: async completion bridge -/

/-- Abstract host-side CompletableFuture object returned by
AsyncRegistry.get. -/
structure JObjectRef where
  id : Nat
deriving Repr, DecidableEq

/-- A host Throwable, identified by its class and detail message. -/
structure JThrowableRef where
  className : String
  message : String
deriving Repr, DecidableEq

/-- Oracle for the host calls made on the completion path.  `new_object`
is the RuntimeException constructor call of make_exception: on success it
yields a RuntimeException whose detail message is the constructor's string
argument (java.lang.RuntimeException semantics). -/
structure CompletionEnv where
  push_local_frame : Option JniError
  get_future : Int → Except JniError JObjectRef
  call_complete : JObjectRef → String → Except JniError Bool
  call_completeExceptionally : JObjectRef → JThrowableRef → Except JniError Bool
  find_class : String → Option JniError
  new_string : String → Option JniError
  new_object : Option JniError

/-- make_exception (lib.rs 216-224): find java/lang/RuntimeException, make
a Java string of the Debug-formatted error, construct the exception with it. -/
def make_exception (henv : CompletionEnv) (err : Error) :
    Except JniError JThrowableRef :=
  match henv.find_class "java/lang/RuntimeException" with
  | some e => .error e
  | none =>
    match henv.new_string err.debugFmt with
    | some e => .error e
    | none =>
      match henv.new_object with
      | some e => .error e
      | none => .ok ⟨"java/lang/RuntimeException", err.debugFmt⟩

/-- Panic sites of complete_future, with their format arguments. -/
inductive CompletionPanic where
  | getFutureFailed (id : Int) (e : JniError)
  | completeCallFailed (id : Int) (payload : String) (e : JniError)
  | makeExceptionFailed (err : Error) (e : JniError)
  | completeExceptionallyCallFailed (id : Int) (err : Error) (e : JniError)
deriving Repr, DecidableEq

/-- Outcome of complete_future on the worker thread. -/
inductive CompletionOutcome where
  | completed (future : JObjectRef) (payload : String)
  | completedExceptionally (future : JObjectRef) (ex : JThrowableRef)
  | frameSkipped (e : JniError)
  | panicked (p : CompletionPanic)
deriving Repr, DecidableEq

/-- complete_future (lib.rs 168-210): inside a 16-slot local frame, fetch
the future by id (panic if that fails); on Ok complete it with the payload
string, on Err build a RuntimeException via make_exception and complete the
future exceptionally; every failure of these steps panics.  A failure to
push the local frame is discarded by `let _ =` and skips the body. -/
def complete_future (henv : CompletionEnv) (id : Int) (result : Except Error String) :
    CompletionOutcome :=
  match henv.push_local_frame with
  | some e => .frameSkipped e
  | none =>
    match henv.get_future id with
    | .error e => .panicked (.getFutureFailed id e)
    | .ok future =>
      match result with
      | .ok payload =>
        match henv.call_complete future payload with
        | .error e => .panicked (.completeCallFailed id payload e)
        | .ok _ => .completed future payload
      | .error err =>
        match make_exception henv err with
        | .error e => .panicked (.makeExceptionFailed err e)
        | .ok ex =>
          match henv.call_completeExceptionally future ex with
          | .error e => .panicked (.completeExceptionallyCallFailed id err e)
          | .ok _ => .completedExceptionally future ex

/-- The Result the spawned task hands to complete_future (lib.rs 151-161):
the fetch outcome, with a transport failure wrapped as Error.reqwest, and a
successful body converted to a Java string (failure wrapped as Error.jni).
`loc1`/`loc2` are the snafu implicit locations. -/
def fetch_envelope (henv : CompletionEnv) (fetch : Except ReqwestError String)
    (loc1 loc2 : String) : Except Error String :=
  match fetch with
  | .error e => .error (.reqwest e loc1)
  | .ok body =>
    match henv.new_string body with
    | some e => .error (.jni e loc2)
    | none => .ok body

/-- The whole async unit of work spawned by hello (lib.rs 150-163):
build the result envelope, then complete the future. -/
def async_work (henv : CompletionEnv) (future_id : Int)
    (fetch : Except ReqwestError String) (loc1 loc2 : String) : CompletionOutcome :=
  complete_future henv future_id (fetch_envelope henv fetch loc1 loc2)

/-! ## lib.rs: entry point -/

/-- Oracle for the synchronous steps of hello: converting the url JString,
and the AsyncRegistry.register host call (which mints the handle).
`runtime_set` is whether the RUNTIME cell holds a pool; `register_site_set`
whether ASYNC_REGISTRY_REGISTER was initialized in JNI_OnLoad. -/
structure HelloEnv where
  get_string : Except JniError String
  register_site_set : Bool
  register : Except JniError Int
  runtime_set : Bool
  pending : Option PendingException

deriving instance DecidableEq for Except

/-- Outcome of the inner `hello`: its Result value plus the future ids of
the work it submitted to the pool, or a panic. -/
inductive HelloOutcome where
  | returned (ret : Except Error Int) (spawned : List Int)
  | panicked
deriving Repr, DecidableEq

/-- hello (lib.rs 146-165): convert the url, register a pending operation
on the host to obtain the handle, spawn the async work capturing it, and
return the handle; each failure returns Err before any spawn.  (register's
invoke panics if its cell is unset; runtime() panics if RUNTIME is unset.) -/
def hello (henv : HelloEnv) (loc1 loc2 : String) : HelloOutcome :=
  match henv.get_string with
  | .error e => .returned (.error (.jni e loc1)) []
  | .ok _url =>
    if henv.register_site_set = false then
      .panicked
    else
      match henv.register with
      | .error e => .returned (.error (.jni e loc2)) []
      | .ok future_id =>
        if henv.runtime_set = false then
          .panicked
        else
          .returned (.ok future_id) [future_id]

/-- Outcome of the nativeHello JNI entry point. -/
inductive NativeHelloOutcome where
  | returned (ret : Int) (thrown : Option String) (spawned : List Int)
  | panicked
deriving Repr, DecidableEq

/-- Java_io_greptime_demo_RustJavaDemo_nativeHello (lib.rs 137-144):
unwrap_or_throw with fallback 0 around hello — on Err, throw the
Debug-formatted error as a RuntimeException and return 0. -/
def nativeHello (henv : HelloEnv) (loc1 loc2 : String) : NativeHelloOutcome :=
  match hello henv loc1 loc2 with
  | .panicked => .panicked
  | .returned (.ok v) spawned => .returned v none spawned
  | .returned (.error e) spawned =>
    .returned 0 (some (throw_runtime_exception henv.pending e.debugFmt)) spawned

/-- Substring containment, used to state the "contains the text" claims. -/
def ContainsSubstr (needle hay : String) : Prop :=
  ∃ pre post, hay = pre ++ (needle ++ post)

/-! ## Concrete sample environments, used to evaluate the theorems on
closed inputs. -/

/-- The five method ids CallState::try_new resolves when every lookup
succeeds. -/
def resolved_log_methods : LogMethods :=
  ⟨⟨"io/greptime/demo/utils/Logger", "error", "(Ljava/lang/String;)V"⟩,
    ⟨"io/greptime/demo/utils/Logger", "warn", "(Ljava/lang/String;)V"⟩,
    ⟨"io/greptime/demo/utils/Logger", "info", "(Ljava/lang/String;)V"⟩,
    ⟨"io/greptime/demo/utils/Logger", "debug", "(Ljava/lang/String;)V"⟩,
    ⟨"io/greptime/demo/utils/Logger", "trace", "(Ljava/lang/String;)V"⟩⟩

/-- A call state with an empty logger cache and the resolved methods. -/
def sampleCallState : CallState := ⟨[], resolved_log_methods⟩

/-- A log environment in which every host call succeeds. -/
def sampleLogEnv : LogEnv :=
  ⟨true, none, true, fun _ => none, fun n => .ok ⟨n⟩, none, none⟩

/-- An init environment in which every host call succeeds. -/
def sampleInitEnv : InitEnv :=
  ⟨none, 4, none, none, fun _ _ _ => none⟩

/-- A resolve environment in which every host call succeeds. -/
def sampleResolveEnv : ResolveEnv :=
  ⟨fun _ => none, none, fun _ _ _ => none⟩

/-- A resolve environment whose find_class always fails. -/
def failingResolveEnv : ResolveEnv :=
  ⟨fun _ => some ⟨"NoClassDefFoundError"⟩, none, fun _ _ _ => none⟩

/-- A completion environment in which every host call succeeds. -/
def sampleCompletionEnv : CompletionEnv :=
  ⟨none, fun i => .ok ⟨i.toNat⟩, fun _ _ => .ok true, fun _ _ => .ok true,
    fun _ => none, fun _ => none, none⟩

/-- A completion environment in which the future lookup fails. -/
def lostFutureEnv : CompletionEnv :=
  { sampleCompletionEnv with get_future := fun _ => .error ⟨"future not in registry"⟩ }

/-- A hello environment in which every step succeeds, minting handle 42. -/
def sampleHelloEnv : HelloEnv :=
  ⟨.ok "http://example.com", true, .ok 42, true, none⟩

/-- A hello environment in which every step succeeds and the host mints
handle 0. -/
def zeroHandleHelloEnv : HelloEnv :=
  ⟨.ok "http://example.com", true, .ok 0, true, none⟩

/-- A hello environment in which the register host call fails. -/
def failingRegisterEnv : HelloEnv :=
  ⟨.ok "http://example.com", true, .error ⟨"register threw"⟩, true, none⟩

/-- A hello environment in which converting the url string fails. -/
def badUrlHelloEnv : HelloEnv :=
  ⟨.error ⟨"invalid utf8"⟩, true, .ok 42, true, none⟩

end Demo

/-! ## Theorems -/

open Demo

/-- Helper: a dispatch effect produced by log_dispatch (when none was in
the effects accumulated before it) carries the record's target, the given
message and the level-selected method id. -/
theorem log_dispatch_effect_shape (env : LogEnv) (cs : CallState) (logger : LoggerRef)
    (record : LogRecord) (msg : String) (effs : List LogEffect)
    (name : String) (m : JMethodId) (msg2 : String)
    (hmem : LogEffect.dispatch name m msg2 ∈ (log_dispatch env cs logger record msg effs).effects)
    (heffs : ∀ n m2 s, LogEffect.dispatch n m2 s ∉ effs) :
    name = record.metadata.target ∧ msg2 = msg ∧
      m = cs.methods.find_method record.level := by
  unfold log_dispatch at hmem
  split at hmem
  · exact absurd hmem (heffs _ _ _)
  · split at hmem <;>
    · simp only [List.mem_append, List.mem_singleton] at hmem
      rcases hmem with h | h
      · exact absurd h (heffs _ _ _)
      · injection h with h1 h2 h3
        exact ⟨h1, h3, h2⟩

/-- C7: a log record whose target starts with the excluded-recursion prefix
"jni" is rejected by Logger::enabled, and Logger::log performs no effect at
all on it: no thread attachment, no logger lookup or creation, no
cross-boundary dispatch, no thrown exception, no cache change. -/
theorem c7_jni_records_never_dispatched (env : LogEnv) (cs : Option CallState)
    (record : LogRecord) (h : str_starts_with record.metadata.target "jni" = true) :
    Logger.enabled record.metadata = false ∧
    Logger.log env cs record = ⟨[], cs, none, none⟩ := by
  have he : Logger.enabled record.metadata = false := by
    simp [Logger.enabled, h]
  exact ⟨he, by simp [Logger.log, he]⟩

/-- Witness for C7 on a concrete record from the jni crate target. -/
theorem c7_witness :
    str_starts_with "jni::wrapper" "jni" = true ∧
    Logger.log sampleLogEnv (some sampleCallState)
      ⟨⟨"jni::wrapper"⟩, .info, some "wrapper.rs", some 83, "checking exception"⟩ =
      ⟨[], some sampleCallState, none, none⟩ :=
  ⟨by decide,
    (c7_jni_records_never_dispatched sampleLogEnv (some sampleCallState)
      ⟨⟨"jni::wrapper"⟩, .info, some "wrapper.rs", some 83, "checking exception"⟩
      (by decide)).2⟩

/-- C8: format_msg renders a record carrying file and line information
exactly as "{file}:{line} - {message}", and every dispatch effect that
Logger::log performs passes the record's target, the method id selected
from the call-state's method table by the record's level, and exactly the
format_msg rendering of the record. -/
theorem c8_dispatch_message_shape (record : LogRecord) :
    (∀ f l, record.file = some f → record.line = some l →
      format_msg record = f ++ ((":" ++ toString l) ++ (" - " ++ record.args)))
    ∧ (∀ env cs name m msg,
        LogEffect.dispatch name m msg ∈ (Logger.log env cs record).effects →
        name = record.metadata.target ∧ msg = format_msg record ∧
        ∀ cs0, cs = some cs0 → m = cs0.methods.find_method record.level) := by
  constructor
  · intro f l hf hl
    simp [format_msg, hf, hl]
  · intro env cs name m msg hmem
    unfold Logger.log at hmem
    split at hmem
    · simp at hmem
    · split at hmem
      · simp at hmem
      · split at hmem
        · simp at hmem
        · split at hmem
          · simp at hmem
          · rename_i cs0 _
            split at hmem
            · rename_i logger _
              have := log_dispatch_effect_shape _ _ logger record _ _ name m msg hmem
                (by intro n m2 s hn; simp at hn)
              exact ⟨this.1, this.2.1, fun cs1 hcs1 => by
                cases hcs1; exact this.2.2⟩
            · split at hmem
              · simp at hmem
              · split at hmem
                · simp at hmem
                · split at hmem
                  · simp at hmem
                  · rename_i logger _
                    have := log_dispatch_effect_shape _ _ logger record _ _ name m msg hmem
                      (by intro n m2 s hn; simp at hn)
                    exact ⟨this.1, this.2.1, fun cs1 hcs1 => by
                      cases hcs1; exact this.2.2⟩

/-- Witness for C8 on a concrete record with file and line. -/
theorem c8_witness :
    format_msg ⟨⟨"demo"⟩, .info, some "lib.rs", some 131, "initialized"⟩ =
      "lib.rs" ++ ((":" ++ toString (131 : Nat)) ++ (" - " ++ "initialized")) :=
  (c8_dispatch_message_shape ⟨⟨"demo"⟩, .info, some "lib.rs", some 131, "initialized"⟩).1
    "lib.rs" 131 rfl rfl

/-- Helper: once the init flag is raised, libInit is a silent no-op. -/
theorem libInit_noop (env : InitEnv) (n : Int) (s : GlobalState)
    (hs : s.init_flag = true) :
    libInit env n s = ⟨s, none, InitEffects.zero⟩ := by
  unfold libInit
  simp [hs]

/-- Helper: every libInit call either ends with the init flag raised or
throws an exception. -/
theorem libInit_flag_or_thrown (env : InitEnv) (n : Int) (s : GlobalState) :
    (libInit env n s).state.init_flag = true ∨
      ∃ m, (libInit env n s).thrown = some m := by
  unfold libInit
  repeat' split
  all_goals
    first
      | exact .inl rfl
      | exact .inr ⟨_, rfl⟩
      | (rename_i hs; exact .inl hs)

/-- Helper: a libInit call that throws nothing leaves the init flag raised. -/
theorem libInit_success_flag (env : InitEnv) (n : Int) (s : GlobalState)
    (h : (libInit env n s).thrown = none) :
    (libInit env n s).state.init_flag = true := by
  rcases libInit_flag_or_thrown env n s with hf | ⟨m, hm⟩
  · exact hf
  · rw [hm] at h
    exact absurd h (by simp)

/-- C4: init is idempotent — after any libInit call that succeeded (threw
nothing), every later call, with any pool size and any host behaviour, is a
silent no-op: it throws nothing, runs none of the once-initializers (no
second pool, no VM re-fetch, no call-state rebuild, no logger
re-registration) and leaves the global state unchanged. -/
theorem c4_init_idempotent (env1 env2 : InitEnv) (n1 n2 : Int) (s0 : GlobalState)
    (h : (libInit env1 n1 s0).thrown = none) :
    libInit env2 n2 (libInit env1 n1 s0).state =
      ⟨(libInit env1 n1 s0).state, none, InitEffects.zero⟩ :=
  libInit_noop env2 n2 _ (libInit_success_flag env1 n1 s0 h)

/-- Witness for C4: a concrete successful init followed by a second call. -/
theorem c4_witness :
    libInit sampleInitEnv 3 (libInit sampleInitEnv 2 GlobalState.empty).state =
      ⟨(libInit sampleInitEnv 2 GlobalState.empty).state, none, InitEffects.zero⟩ :=
  c4_init_idempotent sampleInitEnv sampleInitEnv 2 3 GlobalState.empty (by decide)

/-- C5: on the completion path, with the local frame pushed, a failed
future-lookup always panics the worker (never a recoverable return), and so
does a failure of the complete call itself or of the completeExceptionally
call itself. -/
theorem c5_completion_failures_fatal (henv : CompletionEnv) (id : Int)
    (hpush : henv.push_local_frame = none) :
    (∀ result e, henv.get_future id = .error e →
      complete_future henv id result = .panicked (.getFutureFailed id e))
    ∧ (∀ future payload e, henv.get_future id = .ok future →
        henv.call_complete future payload = .error e →
        complete_future henv id (.ok payload) = .panicked (.completeCallFailed id payload e))
    ∧ (∀ future err ex e, henv.get_future id = .ok future →
        make_exception henv err = .ok ex →
        henv.call_completeExceptionally future ex = .error e →
        complete_future henv id (.error err) =
          .panicked (.completeExceptionallyCallFailed id err e)) := by
  refine ⟨fun result e hg => ?_, fun future payload e hg hc => ?_,
    fun future err ex e hg hmk hc => ?_⟩
  · simp [complete_future, hpush, hg]
  · simp [complete_future, hpush, hg, hc]
  · simp [complete_future, hpush, hg, hmk, hc]

/-- Witness for C5: a registry that lost the handle panics the worker. -/
theorem c5_witness :
    complete_future lostFutureEnv 7 (.ok "body") =
      .panicked (.getFutureFailed 7 ⟨"future not in registry"⟩) :=
  (c5_completion_failures_fatal lostFutureEnv 7 rfl).1 (.ok "body")
    ⟨"future not in registry"⟩ rfl

/-- C1: when the spawned work finishes and the bridge calls themselves
succeed, the worker completes the future fetched by the handle with the
success string; and whenever the envelope carries a failure (fetch error or
string-conversion error), the worker builds a java/lang/RuntimeException
whose message is the Debug-formatted failure description and calls
completeExceptionally with that wrapper object — never with the raw
underlying failure. -/
theorem c1_async_completion_protocol (henv : CompletionEnv) (id : Int)
    (fetch : Except ReqwestError String) (loc1 loc2 : String) (future : JObjectRef)
    (hpush : henv.push_local_frame = none)
    (hget : henv.get_future id = .ok future) :
    (∀ body b, fetch = .ok body → henv.new_string body = none →
      henv.call_complete future body = .ok b →
      async_work henv id fetch loc1 loc2 = .completed future body)
    ∧ (∀ err b, fetch_envelope henv fetch loc1 loc2 = .error err →
        henv.find_class "java/lang/RuntimeException" = none →
        henv.new_string err.debugFmt = none →
        henv.new_object = none →
        henv.call_completeExceptionally future ⟨"java/lang/RuntimeException", err.debugFmt⟩ = .ok b →
        async_work henv id fetch loc1 loc2 =
          .completedExceptionally future ⟨"java/lang/RuntimeException", err.debugFmt⟩) := by
  constructor
  · intro body b hfetch hconv hcall
    simp [async_work, fetch_envelope, hfetch, hconv, complete_future, hpush, hget, hcall]
  · intro err b henvp hfc hns hno hcall
    simp [async_work, henvp, complete_future, hpush, hget, make_exception, hfc, hns, hno, hcall]

/-- Witness for C1: concrete success delivery and concrete failure
wrapping on the sample completion environment. -/
theorem c1_witness :
    async_work sampleCompletionEnv 9 (.ok "the body") "l1" "l2" =
      .completed ⟨9⟩ "the body"
    ∧ async_work sampleCompletionEnv 9 (.error ⟨"dns failure"⟩) "l1" "l2" =
      .completedExceptionally ⟨9⟩
        ⟨"java/lang/RuntimeException", (Error.reqwest ⟨"dns failure"⟩ "l1").debugFmt⟩ :=
  ⟨(c1_async_completion_protocol sampleCompletionEnv 9 (.ok "the body") "l1" "l2" ⟨9⟩
      rfl rfl).1 "the body" true rfl rfl rfl,
    (c1_async_completion_protocol sampleCompletionEnv 9 (.error ⟨"dns failure"⟩) "l1" "l2" ⟨9⟩
      rfl rfl).2 (Error.reqwest ⟨"dns failure"⟩ "l1") true rfl rfl rfl rfl rfl⟩

/-- C2: if, after the url string converts, the synchronous register call
fails, nativeHello throws the failure to the host as a RuntimeException and
returns without submitting any work to the pool (the operation never
starts running); if register succeeds (and the runtime exists), nativeHello
submits the work capturing the fresh handle and returns that handle — the
return value does not depend on the outcome of the spawned work. -/
theorem c2_register_failure_aborts (henv : HelloEnv) (loc1 loc2 : String) (url : String)
    (hs : henv.get_string = .ok url) (hsite : henv.register_site_set = true) :
    (∀ e, henv.register = .error e →
      nativeHello henv loc1 loc2 =
        .returned 0
          (some (throw_runtime_exception henv.pending (Error.jni e loc2).debugFmt)) [])
    ∧ (∀ fid, henv.register = .ok fid → henv.runtime_set = true →
        nativeHello henv loc1 loc2 = .returned fid none [fid]) := by
  constructor
  · intro e he
    simp [nativeHello, hello, hs, hsite, he]
  · intro fid hf hr
    simp [nativeHello, hello, hs, hsite, hf, hr]

/-- Witness for C2: concrete failing-register and succeeding runs. -/
theorem c2_witness :
    nativeHello failingRegisterEnv "l1" "l2" =
      .returned 0
        (some (throw_runtime_exception none (Error.jni ⟨"register threw"⟩ "l2").debugFmt)) []
    ∧ nativeHello sampleHelloEnv "l1" "l2" = .returned 42 none [42] :=
  ⟨(c2_register_failure_aborts failingRegisterEnv "l1" "l2" "http://example.com"
      rfl rfl).1 ⟨"register threw"⟩ rfl,
    (c2_register_failure_aborts sampleHelloEnv "l1" "l2" "http://example.com"
      rfl rfl).2 42 rfl rfl⟩

/-- C10: when nativeHello fails before scheduling (url conversion failure
or register failure) it returns the sentinel 0 together with a thrown
exception and submits nothing; when every step succeeds it returns exactly
the handle the host minted, unmodified — the native side mints no handle of
its own and excludes no int64 value (instantiating the host handle at 0
shows 0 also flows back through the success path). -/
theorem c10_sentinel_zero_on_failure (henv : HelloEnv) (loc1 loc2 : String) :
    (∀ e, henv.get_string = .error e →
      nativeHello henv loc1 loc2 =
        .returned 0
          (some (throw_runtime_exception henv.pending (Error.jni e loc1).debugFmt)) [])
    ∧ (∀ url e, henv.get_string = .ok url → henv.register_site_set = true →
        henv.register = .error e →
        nativeHello henv loc1 loc2 =
          .returned 0
            (some (throw_runtime_exception henv.pending (Error.jni e loc2).debugFmt)) [])
    ∧ (∀ url fid, henv.get_string = .ok url → henv.register_site_set = true →
        henv.register = .ok fid → henv.runtime_set = true →
        nativeHello henv loc1 loc2 = .returned fid none [fid]) := by
  refine ⟨fun e he => ?_, fun url e hu hsite he => ?_, fun url fid hu hsite hf hr => ?_⟩
  · simp [nativeHello, hello, he]
  · simp [nativeHello, hello, hu, hsite, he]
  · simp [nativeHello, hello, hu, hsite, hf, hr]

/-- Witness for C10: a failed conversion returns 0 with a thrown exception,
and a host-minted handle 0 is returned verbatim by the success path. -/
theorem c10_witness :
    nativeHello badUrlHelloEnv "l1" "l2" =
      .returned 0
        (some (throw_runtime_exception none (Error.jni ⟨"invalid utf8"⟩ "l1").debugFmt)) []
    ∧ nativeHello zeroHandleHelloEnv "l1" "l2" = .returned 0 none [0] :=
  ⟨(c10_sentinel_zero_on_failure badUrlHelloEnv "l1" "l2").1 ⟨"invalid utf8"⟩ rfl,
    (c10_sentinel_zero_on_failure zeroHandleHelloEnv "l1" "l2").2.2
      "http://example.com" 0 rfl rfl rfl rfl⟩

/-- C9 counterexample: on a worker thread whose thread-local ENV cell was
never set — the state of any thread before an attachment — the first
access through jni_env does not lazily attach the thread; it panics.  The
attachment is performed eagerly by the pool's on_thread_start hook, not by
the accessor. -/
theorem c9_counterexample : jni_env ⟨none⟩ = .panicked := rfl

/-- C9 (amended): on a native-pool worker thread the environment handle is
created eagerly at thread start — the on_thread_start hook attaches the
thread to the JVM as a daemon exactly once and caches the handle in
thread-local storage — and every jni_env access afterwards returns the
cached handle with no further attachment and no change to the cell, while
jni_env on a thread with an empty cell panics instead of attaching. -/
theorem c9_eager_attach_cached_access (a : Except JniError EnvHandle) (h : EnvHandle)
    (tls0 tls : ThreadTls) (ha : a = .ok h) (hc : tls.env = some h) :
    on_thread_start a tls0 = .ok ⟨some h⟩ 1
    ∧ jni_env tls = .ok h tls 0
    ∧ jni_env ⟨none⟩ = .panicked := by
  refine ⟨?_, ?_, rfl⟩
  · simp [on_thread_start, ha]
  · simp [jni_env, hc]

/-- Witness for the amended C9 on a concrete handle and thread state. -/
theorem c9_witness :
    on_thread_start (.ok ⟨5⟩) ⟨none⟩ = .ok ⟨some ⟨5⟩⟩ 1
    ∧ jni_env ⟨some ⟨5⟩⟩ = .ok ⟨5⟩ ⟨some ⟨5⟩⟩ 0
    ∧ jni_env ⟨none⟩ = .panicked :=
  c9_eager_attach_cached_access (.ok ⟨5⟩) ⟨5⟩ ⟨none⟩ ⟨some ⟨5⟩⟩ rfl rfl

/-- C3: calling libInit with -1 on the uninitialized system throws an
exception whose message contains "cannot be less than 0", runs none of the
initializers and leaves the whole global state untouched (still
uninitialized); a following libInit 0 against a well-behaved host then
performs the full initialization — raising the flag, fetching the VM,
building a pool of num_cpus workers, building the call state, registering
the logger — and throws nothing. -/
theorem c3_negative_size_rejected (env env2 : InitEnv)
    (h2vm : env2.get_java_vm = none) (h2rt : env2.build_runtime = none)
    (h2gm : ∀ c m sg, env2.get_method_id c m sg = none) :
    (∃ m, (libInit env (-1) GlobalState.empty).thrown = some m ∧
      ContainsSubstr "cannot be less than 0" m)
    ∧ (libInit env (-1) GlobalState.empty).state = GlobalState.empty
    ∧ (libInit env (-1) GlobalState.empty).effects = InitEffects.zero
    ∧ libInit env2 0 (libInit env (-1) GlobalState.empty).state =
        ⟨⟨true, some (), some env2.num_cpus, some ⟨[], resolved_log_methods⟩, true⟩,
          none, ⟨1, 1, 1, 1⟩⟩ := by
  have hneg : libInit env (-1) GlobalState.empty =
      ⟨GlobalState.empty,
        some (throw_runtime_exception env.pending "`runtime_size` cannot be less than 0"),
        InitEffects.zero⟩ := by
    norm_num [libInit, GlobalState.empty]
  have hcs : CallState.try_new env2.get_method_id =
      .ok ⟨[], resolved_log_methods⟩ := by
    simp [CallState.try_new, h2gm, resolved_log_methods]
  refine ⟨⟨throw_runtime_exception env.pending "`runtime_size` cannot be less than 0",
      by rw [hneg], ?_⟩, by rw [hneg], by rw [hneg], ?_⟩
  · cases hp : env.pending with
    | none =>
      refine ⟨"`runtime_size` ", "", ?_⟩
      simp only [throw_runtime_exception]
      decide
    | some ex =>
      refine ⟨"`runtime_size` ",
        ". Java exception occurred: " ++ ex.className ++ ": " ++ ex.message, ?_⟩
      simp only [throw_runtime_exception]
      simp [← String.append_assoc]
  · rw [hneg]
    simp [libInit, GlobalState.empty, get_or_try_init, h2vm, h2rt, hcs, countB]

/-- Witness for C3 on the all-succeeding sample host environment. -/
theorem c3_witness :
    (∃ m, (libInit sampleInitEnv (-1) GlobalState.empty).thrown = some m ∧
      ContainsSubstr "cannot be less than 0" m)
    ∧ (libInit sampleInitEnv (-1) GlobalState.empty).state = GlobalState.empty
    ∧ (libInit sampleInitEnv (-1) GlobalState.empty).effects = InitEffects.zero
    ∧ libInit sampleInitEnv 0 (libInit sampleInitEnv (-1) GlobalState.empty).state =
        ⟨⟨true, some (), some sampleInitEnv.num_cpus, some ⟨[], resolved_log_methods⟩, true⟩,
          none, ⟨1, 1, 1, 1⟩⟩ :=
  c3_negative_size_rejected sampleInitEnv sampleInitEnv rfl rfl (fun _ _ _ => rfl)

/-- Helper: with all three cells already set, mi_init resolves nothing and
changes nothing. -/
theorem mi_init_full (env : ResolveEnv) (l r g : StaticMethodInvoker) :
    mi_init env ⟨some l, some r, some g⟩ =
      (.ok (), ⟨some l, some r, some g⟩, ⟨0, 0, 0⟩) := by
  simp [mi_init, get_or_try_init, countB]

/-- Helper: any number of further mi_init calls on fully-set cells resolve
nothing. -/
theorem mi_init_n_full (env : ResolveEnv) (l r g : StaticMethodInvoker) (n : Nat) :
    mi_init_n env n ⟨some l, some r, some g⟩ =
      (⟨some l, some r, some g⟩, ⟨0, 0, 0⟩) := by
  induction n with
  | zero => rfl
  | succ n ih => simp [mi_init_n, mi_init_full, ih]; rfl

/-- C6: when each of the three fixed call sites resolves, loading the
library resolves each exactly once into the three process-wide cells
(storing exactly the triples named in the source) and returns JNI version
1.8; any number of further first-touches of the initializer — the
sequential reduction of N racing threads, which the once-cells serialize —
still yields exactly one resolution per site; and if any of the three
resolutions fails, JNI_OnLoad panics, aborting the load. -/
theorem c6_sites_resolved_once_at_load (env : ResolveEnv) :
    (∀ l r g, logger_site env = .ok l → register_site env = .ok r →
      get_future_site env = .ok g →
      JNI_OnLoad none env MIState.empty =
        .loaded JNI_VERSION_1_8 ⟨some l, some r, some g⟩ ⟨1, 1, 1⟩
      ∧ ∀ n, mi_init_n env (n + 1) MIState.empty =
          (⟨some l, some r, some g⟩, ⟨1, 1, 1⟩))
    ∧ ((∃ e, logger_site env = .error e) ∨ (∃ e, register_site env = .error e) ∨
        (∃ e, get_future_site env = .error e) →
      ∃ s, JNI_OnLoad none env MIState.empty = .aborted s) := by
  constructor
  · intro l r g hl hr hg
    have hinit : mi_init env MIState.empty =
        (.ok (), ⟨some l, some r, some g⟩, ⟨1, 1, 1⟩) := by
      simp [mi_init, MIState.empty, get_or_try_init, hl, hr, hg, countB]
    constructor
    · simp [JNI_OnLoad, hinit]
    · intro n
      simp [mi_init_n, hinit, mi_init_n_full]
      rfl
  · intro hfail
    rcases hfail with ⟨e, he⟩ | ⟨e, he⟩ | ⟨e, he⟩
    · exact ⟨⟨none, none, none⟩,
        by simp [JNI_OnLoad, mi_init, MIState.empty, get_or_try_init, he]⟩
    · cases hl : logger_site env with
      | error e2 =>
        exact ⟨⟨none, none, none⟩,
          by simp [JNI_OnLoad, mi_init, MIState.empty, get_or_try_init, hl]⟩
      | ok l =>
        exact ⟨⟨some l, none, none⟩,
          by simp [JNI_OnLoad, mi_init, MIState.empty, get_or_try_init, hl, he]⟩
    · cases hl : logger_site env with
      | error e2 =>
        exact ⟨⟨none, none, none⟩,
          by simp [JNI_OnLoad, mi_init, MIState.empty, get_or_try_init, hl]⟩
      | ok l =>
        cases hr : register_site env with
        | error e3 =>
          exact ⟨⟨some l, none, none⟩,
            by simp [JNI_OnLoad, mi_init, MIState.empty, get_or_try_init, hl, hr]⟩
        | ok r =>
          exact ⟨⟨some l, some r, none⟩,
            by simp [JNI_OnLoad, mi_init, MIState.empty, get_or_try_init, hl, hr, he]⟩

/-- Witness for C6: the all-resolving sample host loads with each site
resolved once, five racing first-touches still resolve each site once, and
a host missing the classes aborts the load. -/
theorem c6_witness :
    JNI_OnLoad none sampleResolveEnv MIState.empty =
      .loaded JNI_VERSION_1_8
        ⟨some ⟨"io/greptime/demo/utils/Logger", "getLogger",
            "(Ljava/lang/String;)Lio/greptime/demo/utils/Logger;", .object⟩,
          some ⟨"io/greptime/demo/utils/AsyncRegistry", "register", "()J", .primLong⟩,
          some ⟨"io/greptime/demo/utils/AsyncRegistry", "get",
            "(J)Ljava/util/concurrent/CompletableFuture;", .object⟩⟩ ⟨1, 1, 1⟩
    ∧ mi_init_n sampleResolveEnv 5 MIState.empty =
        (⟨some ⟨"io/greptime/demo/utils/Logger", "getLogger",
            "(Ljava/lang/String;)Lio/greptime/demo/utils/Logger;", .object⟩,
          some ⟨"io/greptime/demo/utils/AsyncRegistry", "register", "()J", .primLong⟩,
          some ⟨"io/greptime/demo/utils/AsyncRegistry", "get",
            "(J)Ljava/util/concurrent/CompletableFuture;", .object⟩⟩, ⟨1, 1, 1⟩)
    ∧ ∃ s, JNI_OnLoad none failingResolveEnv MIState.empty = .aborted s :=
  ⟨((c6_sites_resolved_once_at_load sampleResolveEnv).1 _ _ _ rfl rfl rfl).1,
    ((c6_sites_resolved_once_at_load sampleResolveEnv).1 _ _ _ rfl rfl rfl).2 4,
    (c6_sites_resolved_once_at_load failingResolveEnv).2
      (.inl ⟨⟨"NoClassDefFoundError"⟩, rfl⟩)⟩
